import Mathlib

set_option maxRecDepth 5000

/-!
Shallow embedding of `bydhvs/__init__.py` (the BYD HVS battery protocol
driver): packet validation, field decoders, payload parsers and the polling
state machine, together with proofs about the frozen specification claims.

Conventions of the embedding:
* A byte buffer is a `List Nat` (wire bytes are 0..255; definitions are total
  over all naturals, which only widens the quantification).
* Python machine integers become `Nat`/`Int`; values produced by float
  division or `round` become `PyRat`, an exact (unnormalized) rational —
  every float the driver produces is an exact decimal fraction at the
  points the claims observe, so exact rationals model them faithfully.
* Fallible Python operations (direct indexing `data[i]`, `bytes.decode`,
  `int(s, 16)` on an empty string, `self.tower_attributes[n]`) return
  `Except PyExc`; a raised exception aborts the parse.  In the source a
  raise leaves the fields assigned before it; no claim observes those
  partially-assigned fields, so parses here are all-or-nothing.
* Python slices `data[a:b]` never raise and clip to the buffer; a negative
  end counts from the end of the buffer (`pySlice` reproduces this exactly,
  including the negative-end case that `_parse_packet8` can hit).
* String-valued snapshot fields are represented by their underlying data
  (byte lists, version-number pairs, table indices); the source's string
  renderings are injective functions of these, and no claim inspects the
  rendered text itself.
-/

namespace BydHvs

/-- Byte buffers: the wire representation used by the driver. -/
abbrev Bytes := List Nat

/-- Python exceptions that the parsing layer can raise (plus the connection
errors `_connect` raises). -/
inductive PyExc where
  /-- `IndexError` from direct indexing past the end of a buffer or list. -/
  | idxError
  /-- `UnicodeDecodeError` from `bytes.decode('ascii')` on a byte ≥ 128. -/
  | decodeError
  /-- `ValueError` from `int('', 16)` on an empty balancing slice. -/
  | valueError
  /-- `BYDHVSConnectionError` / `BYDHVSTimeoutError` raised by `_connect`. -/
  | connError
  deriving DecidableEq, Repr

/-- Python slice `d[a : b]` with a non-negative start `a` and a possibly
negative end `b`: a negative end counts from the end of the buffer, and the
result is clipped to the buffer (never raises). -/
def pySlice (d : Bytes) (a : Nat) (b : Int) : Bytes :=
  let stop : Nat := if b < 0 then ((d.length : Int) + b).toNat else b.toNat
  (d.take stop).drop a

/-- `int.from_bytes(s, 'big')`. -/
def bytesBE (s : Bytes) : Nat := s.foldl (fun a b => a * 256 + b) 0

/-- `int.from_bytes(s, 'big', signed=True)`; an empty slice decodes to 0,
exactly as in Python. -/
def bytesBEsigned (s : Bytes) : Int :=
  let u := bytesBE s
  if 2 * u < 256 ^ s.length then (u : Int) else (u : Int) - ((256 ^ s.length : Nat) : Int)

/-- `_buf2int16_si`: signed big-endian 16-bit read via a (non-raising) slice. -/
def buf2int16si (d : Bytes) (pos : Nat) : Int :=
  bytesBEsigned (pySlice d pos ((pos : Int) + 2))

/-- `_buf2int16_us`: unsigned big-endian 16-bit read via a (non-raising) slice. -/
def buf2int16us (d : Bytes) (pos : Nat) : Nat :=
  bytesBE (pySlice d pos ((pos : Int) + 2))

/-- Direct Python indexing `d[i]`: raises `IndexError` past the end. -/
def at? (d : Bytes) (i : Nat) : Except PyExc Nat :=
  match d.get? i with
  | some b => .ok b
  | none => .error .idxError

/-- `_buf2int32_us`: the wire's permuted 32-bit read
`data[pos+2]*16777216 + data[pos+3]*65536 + data[pos]*256 + data[pos+1]`,
with each direct index able to raise. -/
def buf2int32us (d : Bytes) (pos : Nat) : Except PyExc Nat := do
  let b2 ← at? d (pos + 2)
  let b3 ← at? d (pos + 3)
  let b0 ← at? d pos
  let b1 ← at? d (pos + 1)
  pure (b2 * 16777216 + b3 * 65536 + b0 * 256 + b1)

/-- One bit step of CRC-16/MODBUS: shift right and xor the reflected
polynomial 0xA001 when the low bit was set. -/
def crcBit (c : Nat) : Nat := if c % 2 = 1 then (c / 2) ^^^ 0xA001 else c / 2

/-- One byte step of CRC-16/MODBUS: xor in the byte, then eight bit steps. -/
def crcByte (c b : Nat) : Nat :=
  crcBit (crcBit (crcBit (crcBit (crcBit (crcBit (crcBit (crcBit (c ^^^ b))))))))

/-- The running-checksum loop: one byte step per buffer byte, the
accumulator matched to keep it a literal during evaluation (the source
keeps it in a mutable variable). -/
def crcFold (a : Nat) : Bytes → Nat
  | [] => a
  | b :: bs =>
    match crcByte a b with
    | 0 => crcFold 0 bs
    | c + 1 => crcFold (c + 1) bs

/-- CRC-16/MODBUS (initial value 0xFFFF, reflected polynomial 0xA001), as
computed by `crcmod.predefined.mkCrcFun('modbus')` in the source. -/
def CRC16 (d : Bytes) : Nat := crcFold 0xFFFF d

/-- `_check_packet`: length floor, unit id, function code, declared-length
check for function code 3, and CRC over the whole frame equal to zero. -/
def checkPacket (d : Bytes) : Bool :=
  if d.length < 5 then false
  else if d.getD 0 0 ≠ 1 then false
  else
    let functionCode := d.getD 1 0
    let dataLength := d.getD 2 0
    let packetLength := dataLength + 5
    if functionCode = 3 then
      if packetLength ≠ d.length then false else decide (CRC16 d = 0)
    else if functionCode ≠ 16 then false
    else decide (CRC16 d = 0)

/-- `bin(n).count('1')`: population count via the binary digit string,
exactly as the source computes balancing counts. -/
def popCount (n : Nat) : Nat := (Nat.toDigits 2 n).count (Char.ofNat 49)

/-- Concatenation of the decimal renderings of two naturals re-read as an
integer: `int(f"{a}{b}")`, used for the tower status word. -/
def pyConcatInt (a b : Nat) : Nat := a * 10 ^ (Nat.toDigits 10 b).length + b

/-- Bytes treated as whitespace by Python's `str.strip`. -/
def isPySpace (b : Nat) : Bool :=
  b = 32 || b = 9 || b = 10 || b = 13 || b = 11 || b = 12

/-- `str.strip()` on the ASCII bytes of a decoded string. -/
def pyStrip (s : Bytes) : Bytes :=
  ((s.dropWhile isPySpace).reverse.dropWhile isPySpace).reverse

/-- `bytes.decode('ascii')` succeeds exactly when every byte is below 128. -/
def asciiOk (s : Bytes) : Bool := s.all (fun b => b < 128)

/-- An exact rational `n / d`, kept unnormalized, standing for a Python
float result.  The denominators produced by the driver are always positive
(products of 1, 10 and 100).  Two values built by the same formula from the
same inputs agree structurally, which is the equality used below (and which
implies equality of the represented numbers). -/
structure PyRat where
  n : Int := 0
  d : Int := 1
  deriving DecidableEq, Repr

/-- A Python int seen as a float value. -/
def pyInt (i : Int) : PyRat := ⟨i, 1⟩

/-- Float multiplication. -/
def PyRat.mul (a b : PyRat) : PyRat := ⟨a.n * b.n, a.d * b.d⟩

/-- Float subtraction. -/
def PyRat.sub (a b : PyRat) : PyRat := ⟨a.n * b.d - b.n * a.d, a.d * b.d⟩

/-- Float (true) division. -/
def PyRat.div (a b : PyRat) : PyRat := ⟨a.n * b.d, a.d * b.n⟩

/-- Python `round(q, dec)` = `⌊q·10^dec + 1/2⌋ / 10^dec` for the positive
denominators the driver produces.  For every value arising in the claims
the argument has at most `dec` decimal digits, where this is exact (ties,
where Python's float rounding could differ, never occur there). -/
def roundTo (dec : Nat) (q : PyRat) : PyRat :=
  ⟨Int.fdiv (2 * q.n * 10 ^ dec + q.d) (2 * q.d), 10 ^ dec⟩

/-- The grid-type string of `_parse_packet0`, keyed by its identity:
0 ↦ "OffGrid", 1 ↦ "OnGrid", 2 ↦ "Backup", 3 ↦ "Unknown",
4 ↦ the initial empty string. -/
def gridType (b : Nat) : Nat := if b ≤ 2 then b else 3

/-- The value of `self.hvs_batt_type`: a raw numeric code from the reply, or
the literal string "LVS" written by the serial-number override, or the
initial empty string. -/
inductive BattType where
  | emptyBT
  | code (n : Nat)
  | lvsBT
  deriving DecidableEq, Repr

/-- The value of `self.hvs_inv_type_string`, keyed by which fixed lookup
table produced it: `fromMain i` is `self._inverters[i]` (i < 20), `fromLvs i`
is `self._lvs_inverters[i]` (i < 21), `undefinedName` is the out-of-range
sentinel "undefined", `emptyName` the initial empty string. -/
inductive InvName where
  | emptyName
  | fromMain (i : Nat)
  | fromLvs (i : Nat)
  | undefinedName
  deriving DecidableEq, Repr

/-- Indices of the set bits (0..15) of a 16-bit status word tested the way
Python tests `mask & (1 << i)` on a possibly negative `int`: the rendered
error/status string is the join of the names at these indices, or
"No Error" when the list is empty. -/
def maskBits (e : Int) : List Nat :=
  (List.range 16).filter (fun i => Nat.testBit (e.emod 65536).toNat i)

/-- One entry of `self.tower_attributes`.  The source uses a dict that is
created holding only the two (empty) reading lists; the remaining fields
default to zero here, standing for the absent keys, and are only read after
`_parse_packet5` has assigned them. -/
structure Tower where
  no : Nat := 0
  maxCellVoltageMv : Int := 0
  minCellVoltageMv : Int := 0
  maxCellVoltageCell : Nat := 0
  minCellVoltageCell : Nat := 0
  maxCellTemp : Nat := 0
  minCellTemp : Nat := 0
  maxCellTempCell : Nat := 0
  minCellTempCell : Nat := 0
  /-- The raw bytes `data[17:33]`; the source stores their hex rendering. -/
  balancingStatus : Bytes := []
  balancingCount : Nat := 0
  chargeTotal : Nat := 0
  dischargeTotal : Nat := 0
  eta : PyRat := {}
  batteryVolt : PyRat := {}
  outVolt : PyRat := {}
  socDiagnosis : PyRat := {}
  soh : Int := 0
  /-- The pair `(data[59], data[60])`; the source stores `f"{a}{b}"` and
  later re-reads it with `int`, i.e. `pyConcatInt a b`. -/
  towerState : Nat × Nat := (0, 0)
  /-- `maskBits` of the status word: stands for `state_string`. -/
  stateBits : List Nat := []
  cellVoltages : List Int := []
  cellTemperatures : List Nat := []
  deriving DecidableEq, Repr

instance : Inhabited Tower := ⟨{}⟩

/-- The mutable state of a `BYDHVS` object: `self._state`, every battery
field set in `__init__` that is ever written afterwards, the tower list, the
tower cursor and the visited-state trace.  (`__init__` also sets a few
top-level fields — `balancing_status`, `max_cell_voltage_mv`, … — that no
method ever assigns again; they are omitted as dead.)  `connected` models
whether the reader/writer pair of the transport is open. -/
structure BYDHVS where
  state : Nat := 0
  hvsSoc : Int := 0
  hvsMaxVolt : PyRat := {}
  hvsMinVolt : PyRat := {}
  hvsSoh : Int := 0
  /-- Trimmed ASCII bytes of the serial number. -/
  hvsSerial : Bytes := []
  hvsBmuA : Nat × Nat := (0, 0)
  hvsBmuB : Nat × Nat := (0, 0)
  /-- Selected version pair and board flag (false = "-A", true = "-B"). -/
  hvsBmu : (Nat × Nat) × Bool := ((0, 0), false)
  /-- Version pair and the raw byte whose `chr(b + 65)` letter is appended. -/
  hvsBms : (Nat × Nat) × Nat := ((0, 0), 0)
  hvsModules : Nat := 0
  hvsModuleCellCount : Nat := 0
  hvsModuleCellTempCount : Nat := 0
  hvsTowers : Nat := 0
  /-- `gridType` code; 4 stands for the initial empty string. -/
  hvsGrid : Nat := 4
  hvsCurrent : PyRat := {}
  hvsBattVolt : PyRat := {}
  hvsMaxTemp : Int := 0
  hvsMinTemp : Int := 0
  hvsBattTemp : Int := 0
  hvsError : Int := 0
  hvsParamT : Nat × Nat := (0, 0)
  hvsOutVolt : PyRat := {}
  hvsPower : PyRat := {}
  hvsDiffVolt : PyRat := {}
  /-- `maskBits` of `hvs_error`: stands for `hvs_error_string`. -/
  hvsErrorBits : List Nat := []
  hvsChargeTotal : PyRat := {}
  hvsDischargeTotal : PyRat := {}
  hvsEta : PyRat := {}
  /-- 0 = unset (initial empty string), 1 = "HVS", 2 = "LVS". -/
  hvsBattTypeFromSerial : Nat := 0
  hvsBattType : BattType := BattType.emptyBT
  /-- 0 = "LVS", 1 = "HVM", 2 = "HVS", 3 = the empty default. -/
  hvsBattTypeString : Nat := 3
  hvsInvType : Nat := 0
  hvsNumCells : Nat := 0
  hvsNumTemps : Nat := 0
  towerAttributes : List Tower := []
  hvsInvTypeString : InvName := InvName.emptyName
  currentTower : Nat := 0
  stateActionList : List Nat := []
  connected : Bool := false
  deriving DecidableEq, Repr

instance : Inhabited BYDHVS := ⟨{}⟩

/-- `self.MAX_CELLS`. -/
def MAX_CELLS : Nat := 160

/-- `self.MAX_TEMPS`. -/
def MAX_TEMPS : Nat := 64

/-- `self.tower_attributes[n]`: raises `IndexError` out of range. -/
def getTower (s : BYDHVS) (n : Nat) : Except PyExc Tower :=
  match s.towerAttributes.get? n with
  | some t => .ok t
  | none => .error .idxError

/-- Write back the mutated tower dict at index `n`. -/
def setTower (s : BYDHVS) (n : Nat) (t : Tower) : BYDHVS :=
  { s with towerAttributes := s.towerAttributes.set n t }

/-- The tower at index `n` of the snapshot (defaulting, used in statements
only after `getTower` is known to succeed). -/
def towerAt (s : BYDHVS) (n : Nat) : Tower := s.towerAttributes.getD n default

/-- `_parse_packet0`: serial number, battery-type hint from the hardware
byte, firmware versions, module/tower counts packed in byte 36, grid type. -/
def parsePacket0 (s : BYDHVS) (d : Bytes) : Except PyExc BYDHVS := do
  let serialRaw := pySlice d 3 22
  if ¬ asciiOk serialRaw then throw .decodeError
  let serial := pyStrip serialRaw
  let hardwareType ← at? d 5
  let fromSerial : Nat :=
    if hardwareType = 51 then 1
    else if hardwareType = 49 ∨ hardwareType = 50 then 2
    else s.hvsBattTypeFromSerial
  let a27 ← at? d 27
  let a28 ← at? d 28
  let a29 ← at? d 29
  let a30 ← at? d 30
  let sel ← at? d 33
  let bmuA := (a27, a28)
  let bmuB := (a29, a30)
  let bmu := if sel = 0 then (bmuA, false) else (bmuB, true)
  let b31 ← at? d 31
  let b32 ← at? d 32
  let b34 ← at? d 34
  let b36 ← at? d 36
  let b38 ← at? d 38
  pure { s with
    hvsSerial := serial,
    hvsBattTypeFromSerial := fromSerial,
    hvsBmuA := bmuA, hvsBmuB := bmuB, hvsBmu := bmu,
    hvsBms := ((b31, b32), b34),
    hvsModules := b36 % 16,
    hvsTowers := b36 / 16,
    hvsGrid := gridType b38 }

/-- `_parse_packet1`: pack-level electrical scalars, error mask, derived
power / spread / totals and the zero-guarded efficiency. -/
def parsePacket1 (s : BYDHVS) (d : Bytes) : Except PyExc BYDHVS := do
  let soc := buf2int16si d 3
  let maxVolt := roundTo 2 (PyRat.div (pyInt (buf2int16si d 5)) (pyInt 100))
  let minVolt := roundTo 2 (PyRat.div (pyInt (buf2int16si d 7)) (pyInt 100))
  let soh := buf2int16si d 9
  let current := roundTo 1 (PyRat.div (pyInt (buf2int16si d 11)) (pyInt 10))
  let battVolt := roundTo 1 (PyRat.div (pyInt (buf2int16us d 13)) (pyInt 100))
  let maxTemp := buf2int16si d 15
  let minTemp := buf2int16si d 17
  let battTemp := buf2int16si d 19
  let err := buf2int16si d 29
  let p31 ← at? d 31
  let p32 ← at? d 32
  let outVolt := roundTo 1 (PyRat.div (pyInt (buf2int16us d 35)) (pyInt 100))
  let power := roundTo 2 (PyRat.mul current outVolt)
  let diffVolt := roundTo 2 (PyRat.sub maxVolt minVolt)
  let chargeRaw ← buf2int32us d 37
  let dischargeRaw ← buf2int32us d 41
  let chargeTotal := PyRat.div (pyInt chargeRaw) (pyInt 10)
  let dischargeTotal := PyRat.div (pyInt dischargeRaw) (pyInt 10)
  let eta :=
    if chargeTotal.n ≠ 0 then PyRat.div (PyRat.mul (pyInt 100) dischargeTotal) chargeTotal
    else pyInt 0
  pure { s with
    hvsSoc := soc, hvsMaxVolt := maxVolt, hvsMinVolt := minVolt,
    hvsSoh := soh, hvsCurrent := current, hvsBattVolt := battVolt,
    hvsMaxTemp := maxTemp, hvsMinTemp := minTemp, hvsBattTemp := battTemp,
    hvsError := err, hvsParamT := (p31, p32), hvsOutVolt := outVolt,
    hvsPower := power, hvsDiffVolt := diffVolt,
    hvsErrorBits := maskBits err,
    hvsChargeTotal := chargeTotal, hvsDischargeTotal := dischargeTotal,
    hvsEta := eta }

/-- `_parse_packet2`: battery/inverter type codes, per-module counts from
the battery-type table, the LVS serial-hint override, and the final clamps
to `MAX_CELLS` / `MAX_TEMPS`. -/
def parsePacket2 (s : BYDHVS) (d : Bytes) : Except PyExc BYDHVS := do
  let battTypeRaw ← at? d 5
  let invType ← at? d 3
  let cellCount := if battTypeRaw = 1 then 16 else if battTypeRaw = 2 then 32 else 0
  let tempCount := if battTypeRaw = 1 then 8 else if battTypeRaw = 2 then 12 else 0
  let typeString := if battTypeRaw ≤ 2 then battTypeRaw else 3
  let s1 : BYDHVS := { s with
    hvsBattType := BattType.code battTypeRaw,
    hvsInvType := invType,
    hvsBattTypeString := typeString,
    hvsModuleCellCount := cellCount,
    hvsModuleCellTempCount := tempCount,
    hvsNumCells := s.hvsModules * cellCount,
    hvsNumTemps := s.hvsModules * tempCount,
    hvsInvTypeString :=
      if invType < 20 then InvName.fromMain invType else InvName.undefinedName }
  let s2 : BYDHVS :=
    if s.hvsBattTypeFromSerial = 2 then
      { s1 with
        hvsBattType := BattType.lvsBT,
        hvsModuleCellCount := 8,
        hvsModuleCellTempCount := 4,
        hvsNumCells := s.hvsModules * 8,
        hvsNumTemps := s.hvsModules * 4,
        hvsInvTypeString :=
          if invType < 21 then InvName.fromLvs invType else InvName.undefinedName }
    else s1
  pure { s2 with
    hvsNumCells := min s2.hvsNumCells MAX_CELLS,
    hvsNumTemps := min s2.hvsNumTemps MAX_TEMPS }

/-- `_parse_packet5`: first cell block for a tower — summary fields,
balancing bitmap, totals, efficiency, status word and exactly
16 cell voltages at byte 101. -/
def parsePacket5 (s : BYDHVS) (d : Bytes) (towerNumber : Nat) :
    Except PyExc BYDHVS := do
  let t ← getTower s towerNumber
  let maxV := buf2int16si d 5
  let minV := buf2int16si d 7
  let b9 ← at? d 9
  let b10 ← at? d 10
  let b12 ← at? d 12
  let b14 ← at? d 14
  let b15 ← at? d 15
  let b16 ← at? d 16
  let bal := pySlice d 17 33
  if bal.isEmpty then throw .valueError
  let balCount := popCount (bytesBE bal)
  let charge ← buf2int32us d 33
  let discharge ← buf2int32us d 37
  let eta :=
    if charge ≠ 0 then PyRat.div (PyRat.mul (pyInt 100) (pyInt discharge)) (pyInt charge)
    else pyInt 0
  let battVolt := roundTo 1 (PyRat.div (pyInt (buf2int16si d 45)) (pyInt 10))
  let outV := roundTo 1 (PyRat.div (pyInt (buf2int16si d 51)) (pyInt 10))
  let socDiag := roundTo 1 (PyRat.div (pyInt (buf2int16si d 53)) (pyInt 10))
  let sohT := buf2int16si d 55
  let b59 ← at? d 59
  let b60 ← at? d 60
  let stateVal := pyConcatInt b59 b60
  let voltages := (List.range 16).map (fun i => buf2int16si d (101 + i * 2))
  pure (setTower s towerNumber { t with
    no := towerNumber,
    maxCellVoltageMv := maxV, minCellVoltageMv := minV,
    maxCellVoltageCell := b9, minCellVoltageCell := b10,
    maxCellTemp := b12, minCellTemp := b14,
    maxCellTempCell := b15, minCellTempCell := b16,
    balancingStatus := bal, balancingCount := balCount,
    chargeTotal := charge, dischargeTotal := discharge, eta := eta,
    batteryVolt := battVolt, outVolt := outV,
    socDiagnosis := socDiag, soh := sohT,
    towerState := (b59, b60),
    stateBits := maskBits (stateVal : Int),
    cellVoltages := voltages })

/-- `_parse_packet6`: appends `min(num_cells - 16, 64)` further voltages
(an empty extension when that count is negative, as Python's `range`). -/
def parsePacket6 (s : BYDHVS) (d : Bytes) (towerNumber : Nat) :
    Except PyExc BYDHVS := do
  let t ← getTower s towerNumber
  let maxCells : Int := min ((s.hvsNumCells : Int) - 16) 64
  let vs := (List.range maxCells.toNat).map (fun i => buf2int16si d (5 + i * 2))
  pure (setTower s towerNumber { t with cellVoltages := t.cellVoltages ++ vs })

/-- `_parse_packet7`: appends `min(num_cells - 80, 48)` voltages and
replaces the temperature list with the slice `data[103 : 103 + min(num_temps, 30)]`. -/
def parsePacket7 (s : BYDHVS) (d : Bytes) (towerNumber : Nat) :
    Except PyExc BYDHVS := do
  let t ← getTower s towerNumber
  let maxCells : Int := min ((s.hvsNumCells : Int) - 80) 48
  let vs := (List.range maxCells.toNat).map (fun i => buf2int16si d (5 + i * 2))
  let maxTemps : Int := min (s.hvsNumTemps : Int) 30
  let temps := pySlice d 103 (103 + maxTemps)
  pure (setTower s towerNumber { t with
    cellVoltages := t.cellVoltages ++ vs,
    cellTemperatures := temps })

/-- `_parse_packet8`: extends the temperature list with the slice
`data[5 : 5 + min(num_temps - 30, 34)]`.  When `num_temps < 30` the end
index is negative and Python counts it from the end of the buffer; the
embedding reproduces that via `pySlice`. -/
def parsePacket8 (s : BYDHVS) (d : Bytes) (towerNumber : Nat) :
    Except PyExc BYDHVS := do
  let t ← getTower s towerNumber
  let maxTemps : Int := min ((s.hvsNumTemps : Int) - 30) 34
  let temps := pySlice d 5 (5 + maxTemps)
  pure (setTower s towerNumber { t with
    cellTemperatures := t.cellTemperatures ++ temps })

/-- `_parse_packet12` (second acquisition pass, > 128 cells): balancing
population count from `data[17:33]` and exactly 16 voltages at byte 101. -/
def parsePacket12 (s : BYDHVS) (d : Bytes) (towerNumber : Nat) :
    Except PyExc BYDHVS := do
  let t ← getTower s towerNumber
  let balancingData := bytesBE (pySlice d 17 33)
  let vs := (List.range 16).map (fun i => buf2int16si d (101 + i * 2))
  pure (setTower s towerNumber { t with
    balancingCount := popCount balancingData,
    cellVoltages := t.cellVoltages ++ vs })

/-- `_parse_packet13` (second acquisition pass): appends
`min(num_cells - 144, 16)` voltages. -/
def parsePacket13 (s : BYDHVS) (d : Bytes) (towerNumber : Nat) :
    Except PyExc BYDHVS := do
  let t ← getTower s towerNumber
  let maxCells : Int := min ((s.hvsNumCells : Int) - 144) 16
  let vs := (List.range maxCells.toNat).map (fun i => buf2int16si d (5 + i * 2))
  pure (setTower s towerNumber { t with cellVoltages := t.cellVoltages ++ vs })

/-!  The polling state machine.

Each dialogue state 2..15 sends a fixed request and then performs one
receive; the transport is abstracted by the list of receive outcomes, one
per dialogue step, where `none` models every failed receive (timeout,
reset, incomplete read — all of which the source maps to the same
invalid-reply branch).  A raise inside a payload parser propagates out of
the loop exactly as the uncaught Python exception does, carrying the object
state from just before the failing parse (mutations inside the failing
parse itself are not observed by any property proved here).  -/

/-- Shared shape of every dialogue-state handler: on an absent or invalid
reply force state 0 (the source logs and aborts); on a valid reply run the
state's own continuation. -/
def withValid (s : BYDHVS) (r : Option Bytes)
    (k : Bytes → BYDHVS × Option PyExc) : BYDHVS × Option PyExc :=
  match r with
  | some d => if checkPacket d then k d else ({ s with state := 0 }, none)
  | none => ({ s with state := 0 }, none)

/-- Run a parser as a step continuation: a raise escapes, success feeds the
next-state choice. -/
def parseStep (s : BYDHVS) (p : Except PyExc BYDHVS)
    (next : BYDHVS → BYDHVS) : BYDHVS × Option PyExc :=
  match p with
  | .ok s' => (next s', none)
  | .error e => (s, some e)

/-- `_state2_send_request0`: decode identity, then allocate
`hvs_towers or 1` fresh tower dicts (each holding empty reading lists). -/
def stateStep2 (s : BYDHVS) (r : Option Bytes) : BYDHVS × Option PyExc :=
  withValid s r (fun d =>
    parseStep s (parsePacket0 s d) (fun s' =>
      { s' with
        towerAttributes :=
          List.replicate (if s'.hvsTowers = 0 then 1 else s'.hvsTowers)
            { cellVoltages := [], cellTemperatures := [] },
        state := 3 }))

/-- `_state3_send_request1`: decode status. -/
def stateStep3 (s : BYDHVS) (r : Option Bytes) : BYDHVS × Option PyExc :=
  withValid s r (fun d =>
    parseStep s (parsePacket1 s d) (fun s' => { s' with state := 4 }))

/-- `_state4_send_request2`: decode battery info; continue only when both
derived counts are positive. -/
def stateStep4 (s : BYDHVS) (r : Option Bytes) : BYDHVS × Option PyExc :=
  withValid s r (fun d =>
    parseStep s (parsePacket2 s d) (fun s' =>
      if 0 < s'.hvsNumCells ∧ 0 < s'.hvsNumTemps then { s' with state := 5 }
      else { s' with state := 0 }))

/-- `_state5_start_measurement`: ack only (plus the settle sleep). -/
def stateStep5 (s : BYDHVS) (r : Option Bytes) : BYDHVS × Option PyExc :=
  withValid s r (fun _ => ({ s with state := 6 }, none))

/-- `_state6_send_request4`: ack only. -/
def stateStep6 (s : BYDHVS) (r : Option Bytes) : BYDHVS × Option PyExc :=
  withValid s r (fun _ => ({ s with state := 7 }, none))

/-- `_state7_send_request5`: first cell block of the current tower. -/
def stateStep7 (s : BYDHVS) (r : Option Bytes) : BYDHVS × Option PyExc :=
  withValid s r (fun d =>
    parseStep s (parsePacket5 s d s.currentTower) (fun s' => { s' with state := 8 }))

/-- `_state8_send_request6`. -/
def stateStep8 (s : BYDHVS) (r : Option Bytes) : BYDHVS × Option PyExc :=
  withValid s r (fun d =>
    parseStep s (parsePacket6 s d s.currentTower) (fun s' => { s' with state := 9 }))

/-- `_state9_send_request7`. -/
def stateStep9 (s : BYDHVS) (r : Option Bytes) : BYDHVS × Option PyExc :=
  withValid s r (fun d =>
    parseStep s (parsePacket7 s d s.currentTower) (fun s' => { s' with state := 10 }))

/-- `_state10_send_request8`: fourth cell block, then either the extended
pass (more than 128 cells), the next tower, or termination. -/
def stateStep10 (s : BYDHVS) (r : Option Bytes) : BYDHVS × Option PyExc :=
  withValid s r (fun d =>
    parseStep s (parsePacket8 s d s.currentTower) (fun s' =>
      if 128 < s'.hvsNumCells then { s' with state := 11 }
      else if s'.currentTower + 1 < s'.hvsTowers then
        { s' with currentTower := s'.currentTower + 1, state := 5 }
      else { s' with state := 0 }))

/-- `_state11_send_request9`: switch acquisition pass, ack only. -/
def stateStep11 (s : BYDHVS) (r : Option Bytes) : BYDHVS × Option PyExc :=
  withValid s r (fun _ => ({ s with state := 12 }, none))

/-- `_state12_send_request10`: start measurement again, ack only. -/
def stateStep12 (s : BYDHVS) (r : Option Bytes) : BYDHVS × Option PyExc :=
  withValid s r (fun _ => ({ s with state := 13 }, none))

/-- `_state13_send_request11`: ack only. -/
def stateStep13 (s : BYDHVS) (r : Option Bytes) : BYDHVS × Option PyExc :=
  withValid s r (fun _ => ({ s with state := 14 }, none))

/-- `_state14_send_request12`: extended cell block. -/
def stateStep14 (s : BYDHVS) (r : Option Bytes) : BYDHVS × Option PyExc :=
  withValid s r (fun d =>
    parseStep s (parsePacket12 s d s.currentTower) (fun s' => { s' with state := 15 }))

/-- `_state15_send_request13`: last extended block, then next tower or
termination. -/
def stateStep15 (s : BYDHVS) (r : Option Bytes) : BYDHVS × Option PyExc :=
  withValid s r (fun d =>
    parseStep s (parsePacket13 s d s.currentTower) (fun s' =>
      if s'.currentTower + 1 < s'.hvsTowers then
        { s' with currentTower := s'.currentTower + 1, state := 5 }
      else { s' with state := 0 }))

/-- One iteration of the `poll` loop: record the state in the trace, then
dispatch through the `state_actions` table (an unknown state is logged and
forced to 0, consuming nothing meaningful). -/
def stepOnce (s₀ : BYDHVS) (r : Option Bytes) : BYDHVS × Option PyExc :=
  let s := { s₀ with stateActionList := s₀.stateActionList ++ [s₀.state] }
  match s₀.state with
  | 2 => stateStep2 s r
  | 3 => stateStep3 s r
  | 4 => stateStep4 s r
  | 5 => stateStep5 s r
  | 6 => stateStep6 s r
  | 7 => stateStep7 s r
  | 8 => stateStep8 s r
  | 9 => stateStep9 s r
  | 10 => stateStep10 s r
  | 11 => stateStep11 s r
  | 12 => stateStep12 s r
  | 13 => stateStep13 s r
  | 14 => stateStep14 s r
  | 15 => stateStep15 s r
  | _ => ({ s with state := 0 }, none)

/-- The `while self._state != 0` loop of `poll`, driven by the finite list
of receive outcomes.  Once the list is exhausted every further receive
times out (`none`), and a single `none` step already forces state 0
(`stepOnce_none_state`), so one closing step models the rest of the
source's loop exactly. -/
def runLoop (s : BYDHVS) : List (Option Bytes) → BYDHVS × Option PyExc
  | [] => if s.state = 0 then (s, none) else stepOnce s none
  | r :: rs =>
    if s.state = 0 then (s, none)
    else
      match stepOnce s r with
      | (s', none) => runLoop s' rs
      | (s', some e) => (s', some e)

/-- The transport as `poll` observes it: whether `_connect` succeeds, and
the successive receive outcomes of the dialogue steps. -/
structure Env where
  connectOk : Bool
  replies : List (Option Bytes)

/-- The object state just after a successful `_connect` inside `poll`. -/
def startMachine (s : BYDHVS) : BYDHVS :=
  { s with state := 2, currentTower := 0, stateActionList := [], connected := true }

/-- `poll`: entry guard, reset of cursor and trace, connect (raising
`BYDHVSConnectionError`/`BYDHVSTimeoutError` on failure — the exception
escapes and the object keeps state 1), the state-machine loop (an uncaught
parser exception likewise escapes, skipping the close), then the
unconditional close and final `state = 0` of the normal path. -/
def poll (env : Env) (s : BYDHVS) : BYDHVS × Option PyExc :=
  if s.state ≠ 0 then (s, none)
  else
    let s₁ := { s with state := 1, currentTower := 0, stateActionList := [] }
    if env.connectOk then
      match runLoop (startMachine s₁) env.replies with
      | (s', none) => ({ s' with connected := false, state := 0 }, none)
      | (s', some e) => (s', some e)
    else (s₁, some .connError)

/-!  Concrete frames (fixed payload bytes followed by their CRC-16/MODBUS
checksum, low byte first), used for witnesses and end-to-end runs.  -/

/-- A minimal write-acknowledgement reply: function code 16, length 5. -/
def ackFrame : Bytes := [1, 16, 0, 45, 192]

/-- Identity reply (function code 3, 40 payload bytes): serial bytes all
65, byte 36 = 18 (towers = 1, modules = 2), byte 38 = 1 (OnGrid). -/
def frameR0 : Bytes :=
  [1, 3, 40] ++ List.replicate 19 65 ++ List.replicate 14 0 ++ [18, 0, 1] ++
    List.replicate 4 0 ++ [148, 158]

/-- Status reply: 40 zero payload bytes. -/
def frameR1 : Bytes := [1, 3, 40] ++ List.replicate 40 0 ++ [103, 154]

/-- Battery-info reply: inverter type 0 (byte 3), battery type 2 = HVS
(byte 5). -/
def frameR2 : Bytes := [1, 3, 10] ++ [0, 0, 2] ++ List.replicate 7 0 ++ [165, 111]

/-- A cell-block reply long enough for every direct read of
`_parse_packet5` (56 zero payload bytes, length 61). -/
def frameR61 : Bytes := [1, 3, 56] ++ List.replicate 56 0 ++ [143, 2]

/-- A longer valid read reply (70 zero payload bytes, length 75). -/
def frameR75 : Bytes := [1, 3, 70] ++ List.replicate 70 0 ++ [233, 4]

/-- The transport of the nominal end-to-end scenario: identity (towers 1,
modules 2), status, battery info (HVS), the two acks, then the four
cell-block replies for the single tower. -/
def env9 : Env :=
  ⟨true, [some frameR0, some frameR1, some frameR2, some ackFrame,
    some ackFrame, some frameR61, some ackFrame, some ackFrame, some ackFrame]⟩

/-- A transport delivering a valid but minimal (5-byte) acknowledgement
frame at dialogue state 7. -/
def env10 : Env :=
  ⟨true, [some frameR0, some frameR1, some frameR2, some ackFrame,
    some ackFrame, some ackFrame]⟩

/-- A transport delivering a long valid reply at dialogue state 10, where
`num_temps = 24 < 30`. -/
def env5bug : Env :=
  ⟨true, [some frameR0, some frameR1, some frameR2, some ackFrame,
    some ackFrame, some frameR61, some ackFrame, some ackFrame, some frameR75]⟩

/-!  Helper lemmas about the machine.  -/

/-- Direct indexing within bounds returns the buffer byte. -/
theorem at?_eq (d : Bytes) (i : Nat) (h : i < d.length) :
    at? d i = .ok (d.getD i 0) := by
  unfold at?
  rw [List.get?_eq_get h]
  simp [List.getD, List.getElem?_eq_getElem h, List.get_eq_getElem]

/-- An exhausted transport (receive returning `none`) forces any dialogue
state to 0 without raising. -/
theorem stepOnce_none (s : BYDHVS) :
    (stepOnce s none).1.state = 0 ∧ (stepOnce s none).2 = none := by
  simp only [stepOnce]
  split <;>
    simp [stateStep2, stateStep3, stateStep4, stateStep5, stateStep6,
      stateStep7, stateStep8, stateStep9, stateStep10, stateStep11,
      stateStep12, stateStep13, stateStep14, stateStep15, withValid]

/-- The loop does nothing once the terminal state is reached. -/
theorem runLoop_state0 (s : BYDHVS) (rs : List (Option Bytes))
    (h : s.state = 0) : runLoop s rs = (s, none) := by
  cases rs <;> simp [runLoop, h]

/-- C1 — `_check_packet` accepts a buffer exactly when: length at least 5,
unit id 1 at byte 0, function code 3 or 16 at byte 1, the declared length
at byte 2 plus 5 equal to the total length when the function code is 3, and
the CRC-16/MODBUS checksum over the whole buffer equal to zero. -/
theorem c1_checkPacket_iff (d : Bytes) :
    checkPacket d = true ↔
      (5 ≤ d.length ∧ d.getD 0 0 = 1 ∧
        (d.getD 1 0 = 3 ∨ d.getD 1 0 = 16) ∧
        (d.getD 1 0 = 3 → d.getD 2 0 + 5 = d.length) ∧
        CRC16 d = 0) := by
  simp only [checkPacket]
  by_cases h5 : d.length < 5
  · rw [if_pos h5]
    simp only [Bool.false_eq_true, false_iff]
    rintro ⟨ha, -, -, -, -⟩
    omega
  · rw [if_neg h5]
    by_cases h0 : d.getD 0 0 = 1
    · rw [if_neg (not_not_intro h0)]
      by_cases h3 : d.getD 1 0 = 3
      · rw [if_pos h3]
        by_cases hl : d.getD 2 0 + 5 = d.length
        · rw [if_neg (not_not_intro hl), decide_eq_true_iff]
          constructor
          · intro hc
            exact ⟨by omega, h0, Or.inl h3, fun _ => hl, hc⟩
          · intro hc
            exact hc.2.2.2.2
        · rw [if_pos hl]
          simp only [Bool.false_eq_true, false_iff]
          rintro ⟨-, -, -, hd, -⟩
          exact hl (hd h3)
      · rw [if_neg h3]
        by_cases h16 : d.getD 1 0 = 16
        · rw [if_neg (not_not_intro h16), decide_eq_true_iff]
          constructor
          · intro hc
            exact ⟨by omega, h0, Or.inr h16, fun h => absurd h h3, hc⟩
          · intro hc
            exact hc.2.2.2.2
        · rw [if_pos h16]
          simp only [Bool.false_eq_true, false_iff]
          rintro ⟨-, -, hc, -, -⟩
          rcases hc with h | h
          · exact h3 h
          · exact h16 h
    · rw [if_pos h0]
      simp only [Bool.false_eq_true, false_iff]
      rintro ⟨-, hb, -⟩
      exact h0 hb

/-- C5 — the temperature-cap invariant fails on the code: in a fully valid
cycle (HVS, 2 modules, so `hvs_num_temps = 24`, correctly clamped) a
75-byte valid reply at state 10 makes `_parse_packet8` extend the
tower's temperature list by `data[5:-1]` — `min(num_temps - 30, 34)` is
negative and Python reads the negative slice end from the end of the
buffer — leaving 69 readings, above the hard maximum 64 (a longer reply
extends further still: a 255-byte reply yields 249 extra readings). -/
theorem c5_temps_exceed_cap :
    (poll env5bug {}).2 = none ∧
    (poll env5bug {}).1.hvsNumTemps = 24 ∧
    ((poll env5bug {}).1.towerAttributes.headD default).cellTemperatures.length = 69 ∧
    ¬ ((poll env5bug {}).1.towerAttributes.headD default).cellTemperatures.length ≤ MAX_TEMPS := by
  refine ⟨by decide, by decide, by decide, by decide⟩

/-- C6 — with at least 4 bytes available at `pos`, the 32-bit decoder
returns exactly the wire's byte permutation
`d[pos+2]*2^24 + d[pos+3]*2^16 + d[pos]*2^8 + d[pos+1]`. -/
theorem c6_buf2int32_permutation (d : Bytes) (pos : Nat)
    (h : pos + 4 ≤ d.length) :
    buf2int32us d pos =
      .ok (d.getD (pos + 2) 0 * 2 ^ 24 + d.getD (pos + 3) 0 * 2 ^ 16 +
        d.getD pos 0 * 2 ^ 8 + d.getD (pos + 1) 0) := by
  have e2 := at?_eq d (pos + 2) (by omega)
  have e3 := at?_eq d (pos + 3) (by omega)
  have e0 := at?_eq d pos (by omega)
  have e1 := at?_eq d (pos + 1) (by omega)
  simp only [buf2int32us, e0, e1, e2, e3]
  rfl

/-- Witness for C6 at a concrete buffer. -/
theorem c6_witness :
    buf2int32us [10, 20, 30, 40] 0 =
      .ok (30 * 2 ^ 24 + 40 * 2 ^ 16 + 10 * 2 ^ 8 + 20) :=
  c6_buf2int32_permutation [10, 20, 30, 40] 0 (by decide)

/-- C8 — invoking `poll` while a prior cycle's state is non-zero is a
no-op: the object (state, cursor, trace, towers, every snapshot field) is
returned untouched and nothing is raised. -/
theorem c8_poll_guard (env : Env) (s : BYDHVS) (h : s.state ≠ 0) :
    poll env s = (s, none) := by
  unfold poll
  simp [h]

/-- Witness for C8: a machine still in dialogue state 3 is left unchanged. -/
theorem c8_witness :
    poll ⟨true, []⟩ ({ state := 3 } : BYDHVS) = (({ state := 3 } : BYDHVS), none) :=
  c8_poll_guard ⟨true, []⟩ { state := 3 } (by decide)

/-- C9 — nominal end-to-end cycle: identity reply with towers = 1,
modules = 2 and battery type HVS yields exactly one tower,
`hvs_num_cells = 64`, `hvs_num_temps = 24`, and the state trace
`[2,3,4,5,6,7,8,9,10]` — the cell-block states 7..10 exactly once, no
extended-pass states 11..15, terminating in state 0 with nothing raised. -/
theorem c9_end_to_end :
    (poll env9 {}).2 = none ∧
    (poll env9 {}).1.state = 0 ∧
    (poll env9 {}).1.hvsTowers = 1 ∧
    (poll env9 {}).1.towerAttributes.length = 1 ∧
    (poll env9 {}).1.hvsNumCells = 64 ∧
    (poll env9 {}).1.hvsNumTemps = 24 ∧
    (poll env9 {}).1.stateActionList = [2, 3, 4, 5, 6, 7, 8, 9, 10] := by
  refine ⟨by decide, by decide, by decide, by decide, by decide, by decide, by decide⟩

/-- C10 — packet validation does not establish the decoders' length
preconditions: the 5-byte acknowledgement frame is CRC-valid and accepted,
yet when it arrives at dialogue state 7 the decoder `_parse_packet5`
indexes byte 9 and raises an out-of-range error that escapes `poll`
(the trace shows the cycle died at state 7, and the close was skipped). -/
theorem c10_validated_packet_escapes :
    checkPacket ackFrame = true ∧
    ackFrame.length = 5 ∧
    (poll env10 {}).2 = some PyExc.idxError ∧
    (poll env10 {}).1.stateActionList = [2, 3, 4, 5, 6, 7] := by
  refine ⟨by decide, by decide, by decide, by decide⟩

/-- Counterexample to C3 as stated: a failed connection attempt makes
`poll` raise (`BYDHVSConnectionError` escapes) and leaves the machine in
state 1 — not the claimed terminal state 0 with closed transport. -/
theorem c3_counterexample :
    (poll ⟨false, []⟩ {}).1.state = 1 ∧
    (poll ⟨false, []⟩ {}).2 = some PyExc.connError := by
  refine ⟨by decide, by decide⟩

/-- Machine for the C4 counterexample: a reachable LVS single-module
configuration reporting 8 cells in total. -/
def c4m : BYDHVS := { hvsNumCells := 8, hvsNumTemps := 4, towerAttributes := [{}] }

/-- A long-enough all-zero reply for `_parse_packet5`. -/
def c4d : Bytes := List.replicate 61 0

/-- Counterexample to C4 as stated: with a device-reported target of 8
cells, `_parse_packet5` still stores 16 voltage readings — not
`min(remaining-needed, per-reply-capacity) = min(8, 16) = 8`. -/
theorem c4_counterexample :
    (parsePacket5 c4m c4d 0).toOption.map (fun s => (towerAt s 0).cellVoltages.length) =
      some 16 ∧
    min c4m.hvsNumCells 16 ≠ 16 := by
  refine ⟨by decide, by decide⟩

/-- C2 — an absent or invalid reply at any dialogue state 2..15 drives the
machine straight to the terminal state 0: the run ends with that state as
the last trace entry, every later reply is left unconsumed, and no decoder
touches the snapshot (all fields besides `state` and the trace are returned
exactly as they were). -/
theorem c2_invalid_reply_terminates (s : BYDHVS) (r : Option Bytes)
    (rs : List (Option Bytes)) (h2 : 2 ≤ s.state) (h15 : s.state ≤ 15)
    (hr : ∀ d, r = some d → checkPacket d = false) :
    runLoop s (r :: rs) =
      ({ s with
          state := 0,
          stateActionList := s.stateActionList ++ [s.state] }, none) := by
  have h0 : s.state ≠ 0 := by omega
  have hcases : s.state = 2 ∨ s.state = 3 ∨ s.state = 4 ∨ s.state = 5 ∨
      s.state = 6 ∨ s.state = 7 ∨ s.state = 8 ∨ s.state = 9 ∨ s.state = 10 ∨
      s.state = 11 ∨ s.state = 12 ∨ s.state = 13 ∨ s.state = 14 ∨
      s.state = 15 := by omega
  have hstep : stepOnce s r =
      ({ s with
          state := 0,
          stateActionList := s.stateActionList ++ [s.state] }, none) := by
    rcases r with _ | d
    · rcases hcases with h | h | h | h | h | h | h | h | h | h | h | h | h | h <;>
        simp [stepOnce, h, stateStep2, stateStep3, stateStep4, stateStep5,
          stateStep6, stateStep7, stateStep8, stateStep9, stateStep10,
          stateStep11, stateStep12, stateStep13, stateStep14, stateStep15,
          withValid]
    · have hc := hr d rfl
      rcases hcases with h | h | h | h | h | h | h | h | h | h | h | h | h | h <;>
        simp [stepOnce, h, stateStep2, stateStep3, stateStep4, stateStep5,
          stateStep6, stateStep7, stateStep8, stateStep9, stateStep10,
          stateStep11, stateStep12, stateStep13, stateStep14, stateStep15,
          withValid, hc]
  rw [runLoop, if_neg h0, hstep]
  exact runLoop_state0 _ _ rfl

/-- Witness for C2 at dialogue state 7 with a reply whose declared length
is right but whose checksum is wrong. -/
theorem c2_witness :
    runLoop ({ state := 7 } : BYDHVS) [some [1, 3, 0, 0, 0], some ackFrame] =
      (({ state := 0, stateActionList := [7] } : BYDHVS), none) := by
  have h := c2_invalid_reply_terminates { state := 7 } (some [1, 3, 0, 0, 0])
    [some ackFrame] (by decide) (by decide)
    (by intro d hd; cases hd; decide)
  exact h

/-!  Shape lemmas for the tower-scoped parsers.  -/

/-- A successful `tower_attributes[n]` lookup pins the index in range and
returns the stored tower. -/
theorem getTower_ok (s : BYDHVS) (n : Nat) (t : Tower)
    (h : getTower s n = .ok t) :
    n < s.towerAttributes.length ∧ towerAt s n = t := by
  unfold getTower at h
  cases hg : s.towerAttributes.get? n with
  | none => rw [hg] at h; exact absurd h (by simp)
  | some u =>
    rw [hg] at h
    injection h with h
    subst h
    refine ⟨?_, ?_⟩
    · rcases List.get?_eq_some.mp hg with ⟨hlt, -⟩
      exact hlt
    · simp only [towerAt, List.getD_eq_getElem?_getD, ← List.get?_eq_getElem?, hg]
      rfl

/-- An in-range `tower_attributes[n]` lookup succeeds. -/
theorem getTower_eq (s : BYDHVS) (n : Nat)
    (h : n < s.towerAttributes.length) :
    getTower s n = .ok (towerAt s n) := by
  unfold getTower
  cases hg : s.towerAttributes.get? n with
  | none =>
    rw [List.get?_eq_none] at hg
    omega
  | some u =>
    simp only [towerAt, List.getD_eq_getElem?_getD, ← List.get?_eq_getElem?, hg]
    rfl

/-- Reading back the tower just written. -/
theorem towerAt_set (s : BYDHVS) (n : Nat) (t : Tower)
    (h : n < s.towerAttributes.length) :
    towerAt (setTower s n t) n = t := by
  simp only [towerAt, setTower, List.getD_eq_getElem?_getD,
    List.getElem?_set_eq_of_lt _ h]
  rfl

/-- What a successful `_parse_packet5` guarantees: the index was in range,
exactly 16 voltages were stored, and the tower efficiency obeys the
zero-guarded formula `100 · discharge / charge`. -/
theorem parsePacket5_ok (s : BYDHVS) (d : Bytes) (n : Nat) (s' : BYDHVS)
    (h : parsePacket5 s d n = .ok s') :
    n < s.towerAttributes.length ∧
    (towerAt s' n).cellVoltages.length = 16 ∧
    ((towerAt s' n).chargeTotal = 0 → (towerAt s' n).eta = pyInt 0) ∧
    ((towerAt s' n).chargeTotal ≠ 0 →
      (towerAt s' n).eta =
        PyRat.div (PyRat.mul (pyInt 100) (pyInt ((towerAt s' n).dischargeTotal : Int)))
          (pyInt ((towerAt s' n).chargeTotal : Int))) := by
  unfold parsePacket5 at h
  cases hg : getTower s n with
  | error e => rw [hg] at h; exact absurd h (by simp [Except.bind, Except.pure, Bind.bind, Pure.pure])
  | ok t =>
  rw [hg] at h
  obtain ⟨hn, -⟩ := getTower_ok s n t hg
  cases h9 : at? d 9 with
  | error e => rw [h9] at h; exact absurd h (by simp [Except.bind, Except.pure, Bind.bind, Pure.pure])
  | ok b9 =>
  rw [h9] at h
  cases h10 : at? d 10 with
  | error e => rw [h10] at h; exact absurd h (by simp [Except.bind, Except.pure, Bind.bind, Pure.pure])
  | ok b10 =>
  rw [h10] at h
  cases h12 : at? d 12 with
  | error e => rw [h12] at h; exact absurd h (by simp [Except.bind, Except.pure, Bind.bind, Pure.pure])
  | ok b12 =>
  rw [h12] at h
  cases h14 : at? d 14 with
  | error e => rw [h14] at h; exact absurd h (by simp [Except.bind, Except.pure, Bind.bind, Pure.pure])
  | ok b14 =>
  rw [h14] at h
  cases h15 : at? d 15 with
  | error e => rw [h15] at h; exact absurd h (by simp [Except.bind, Except.pure, Bind.bind, Pure.pure])
  | ok b15 =>
  rw [h15] at h
  cases h16 : at? d 16 with
  | error e => rw [h16] at h; exact absurd h (by simp [Except.bind, Except.pure, Bind.bind, Pure.pure])
  | ok b16 =>
  rw [h16] at h
  simp only [Except.bind, Except.pure, Bind.bind, Pure.pure, bind, pure] at h
  by_cases hemp : (pySlice d 17 33).isEmpty = true
  · rw [if_pos hemp] at h
    exact absurd h (by simp [Except.bind, Except.pure, Bind.bind, Pure.pure, throw, throwThe, MonadExceptOf.throw])
  rw [if_neg hemp] at h
  cases h33 : buf2int32us d 33 with
  | error e => rw [h33] at h; exact absurd h (by simp [Except.bind, Except.pure, Bind.bind, Pure.pure])
  | ok charge =>
  rw [h33] at h
  cases h37 : buf2int32us d 37 with
  | error e => rw [h37] at h; exact absurd h (by simp [Except.bind, Except.pure, Bind.bind, Pure.pure])
  | ok discharge =>
  rw [h37] at h
  cases h59 : at? d 59 with
  | error e => rw [h59] at h; exact absurd h (by simp [Except.bind, Except.pure, Bind.bind, Pure.pure])
  | ok b59 =>
  rw [h59] at h
  cases h60 : at? d 60 with
  | error e => rw [h60] at h; exact absurd h (by simp [Except.bind, Except.pure, Bind.bind, Pure.pure])
  | ok b60 =>
  rw [h60] at h
  simp only [Except.bind, Except.pure, Bind.bind, Pure.pure, bind, pure] at h
  injection h with h
  subst h
  rw [towerAt_set s n _ hn]
  refine ⟨hn, by simp, ?_, ?_⟩
  · intro hz
    simp only at hz ⊢
    rw [if_neg (by simp [hz])]
  · intro hz
    simp only at hz ⊢
    rw [if_pos (by simpa using hz)]

/-- What a successful `_parse_packet1` guarantees: the pack efficiency
obeys the zero-guarded formula `100 · discharge / charge` (the charge total
is zero exactly when its numerator is). -/
theorem parsePacket1_ok (s : BYDHVS) (d : Bytes) (s' : BYDHVS)
    (h : parsePacket1 s d = .ok s') :
    (s'.hvsChargeTotal.n = 0 → s'.hvsEta = pyInt 0) ∧
    (s'.hvsChargeTotal.n ≠ 0 →
      s'.hvsEta =
        PyRat.div (PyRat.mul (pyInt 100) s'.hvsDischargeTotal) s'.hvsChargeTotal) := by
  unfold parsePacket1 at h
  cases h31 : at? d 31 with
  | error e => rw [h31] at h; exact absurd h (by simp [Except.bind, Except.pure, Bind.bind, Pure.pure])
  | ok b31 =>
  rw [h31] at h
  cases h32 : at? d 32 with
  | error e => rw [h32] at h; exact absurd h (by simp [Except.bind, Except.pure, Bind.bind, Pure.pure])
  | ok b32 =>
  rw [h32] at h
  cases h37 : buf2int32us d 37 with
  | error e => rw [h37] at h; exact absurd h (by simp [Except.bind, Except.pure, Bind.bind, Pure.pure])
  | ok chargeRaw =>
  rw [h37] at h
  cases h41 : buf2int32us d 41 with
  | error e => rw [h41] at h; exact absurd h (by simp [Except.bind, Except.pure, Bind.bind, Pure.pure])
  | ok dischargeRaw =>
  rw [h41] at h
  simp only [Except.bind, Except.pure, Bind.bind, Pure.pure, bind, pure] at h
  injection h with h
  subst h
  refine ⟨?_, ?_⟩
  · intro hz
    simp only at hz ⊢
    rw [if_neg (by simp [hz])]
  · intro hz
    simp only at hz ⊢
    rw [if_pos (by simpa using hz)]

/-- C7 — in both the pack-level status decoder (`_parse_packet1`) and the
tower-level decoder (`_parse_packet5`), a zero cumulative charge total
yields efficiency 0 with no division fault, and a non-zero charge total
yields efficiency `100 · discharge / charge` exactly. -/
theorem c7_eta_guard (sa : BYDHVS) (da : Bytes) (sa' : BYDHVS)
    (ha : parsePacket1 sa da = .ok sa')
    (sb : BYDHVS) (db : Bytes) (n : Nat) (sb' : BYDHVS)
    (hb : parsePacket5 sb db n = .ok sb') :
    ((sa'.hvsChargeTotal.n = 0 → sa'.hvsEta = pyInt 0) ∧
     (sa'.hvsChargeTotal.n ≠ 0 →
       sa'.hvsEta =
         PyRat.div (PyRat.mul (pyInt 100) sa'.hvsDischargeTotal) sa'.hvsChargeTotal)) ∧
    (((towerAt sb' n).chargeTotal = 0 → (towerAt sb' n).eta = pyInt 0) ∧
     ((towerAt sb' n).chargeTotal ≠ 0 →
       (towerAt sb' n).eta =
         PyRat.div (PyRat.mul (pyInt 100) (pyInt ((towerAt sb' n).dischargeTotal : Int)))
           (pyInt ((towerAt sb' n).chargeTotal : Int)))) :=
  ⟨parsePacket1_ok sa da sa' ha, (parsePacket5_ok sb db n sb' hb).2.2⟩

/-- A status reply carrying cumulative charge 200.0 and discharge 150.0
(raw 32-bit reads 2000 and 1500, scaled by 10). -/
def c7da : Bytes := List.replicate 37 0 ++ [7, 208, 0, 0, 5, 220, 0, 0]

/-- The decoded snapshot of `c7da`. -/
def c7sa : BYDHVS := (parsePacket1 {} c7da).toOption.getD default

/-- A one-tower machine for the tower-decoder side. -/
def c7sb : BYDHVS := { towerAttributes := [{}] }

/-- An all-zero cell-block reply (charge total 0). -/
def c7db : Bytes := List.replicate 61 0

/-- The machine after `_parse_packet5` on `c7db`. -/
def c7sb2 : BYDHVS := (parsePacket5 c7sb c7db 0).toOption.getD default

/-- Witness for C7: charge 200 / discharge 150 yields efficiency exactly
`100·150/200 = 75` (the value 1500000/20000), and a zero charge total in
the tower decoder yields efficiency 0 with no fault. -/
theorem c7_witness :
    c7sa.hvsEta =
      PyRat.div (PyRat.mul (pyInt 100) c7sa.hvsDischargeTotal) c7sa.hvsChargeTotal ∧
    c7sa.hvsEta = ⟨1500000, 20000⟩ ∧
    (towerAt c7sb2 0).eta = pyInt 0 := by
  refine ⟨?_, by decide, ?_⟩
  · exact (c7_eta_guard {} c7da c7sa rfl c7sb c7db 0 c7sb2 rfl).1.2 (by decide)
  · exact (c7_eta_guard {} c7da c7sa rfl c7sb c7db 0 c7sb2 rfl).2.1 (by decide)

/-!  Characterizations of the remaining cell-block decoders (they can only
fail on an out-of-range tower index).  -/

/-- `_parse_packet6` appends `min(num_cells - 16, 64)` voltage readings
(none when that count is negative). -/
theorem parsePacket6_eq (s : BYDHVS) (d : Bytes) (n : Nat)
    (hn : n < s.towerAttributes.length) :
    parsePacket6 s d n = .ok (setTower s n
      { towerAt s n with
        cellVoltages := (towerAt s n).cellVoltages ++
          (List.range (min ((s.hvsNumCells : Int) - 16) 64).toNat).map
            (fun i => buf2int16si d (5 + i * 2)) }) := by
  unfold parsePacket6
  rw [getTower_eq s n hn]
  rfl

/-- `_parse_packet7` appends `min(num_cells - 80, 48)` voltage readings and
replaces the temperatures with the slice at byte 103. -/
theorem parsePacket7_eq (s : BYDHVS) (d : Bytes) (n : Nat)
    (hn : n < s.towerAttributes.length) :
    parsePacket7 s d n = .ok (setTower s n
      { towerAt s n with
        cellVoltages := (towerAt s n).cellVoltages ++
          (List.range (min ((s.hvsNumCells : Int) - 80) 48).toNat).map
            (fun i => buf2int16si d (5 + i * 2)),
        cellTemperatures := pySlice d 103 (103 + min (s.hvsNumTemps : Int) 30) }) := by
  unfold parsePacket7
  rw [getTower_eq s n hn]
  rfl

/-- `_parse_packet8` extends the temperatures with the slice
`data[5 : 5 + min(num_temps - 30, 34)]` (Python negative-end semantics). -/
theorem parsePacket8_eq (s : BYDHVS) (d : Bytes) (n : Nat)
    (hn : n < s.towerAttributes.length) :
    parsePacket8 s d n = .ok (setTower s n
      { towerAt s n with
        cellTemperatures := (towerAt s n).cellTemperatures ++
          pySlice d 5 (5 + min ((s.hvsNumTemps : Int) - 30) 34) }) := by
  unfold parsePacket8
  rw [getTower_eq s n hn]
  rfl

/-- `_parse_packet12` appends exactly 16 voltage readings. -/
theorem parsePacket12_eq (s : BYDHVS) (d : Bytes) (n : Nat)
    (hn : n < s.towerAttributes.length) :
    parsePacket12 s d n = .ok (setTower s n
      { towerAt s n with
        balancingCount := popCount (bytesBE (pySlice d 17 33)),
        cellVoltages := (towerAt s n).cellVoltages ++
          (List.range 16).map (fun i => buf2int16si d (101 + i * 2)) }) := by
  unfold parsePacket12
  rw [getTower_eq s n hn]
  rfl

/-- `_parse_packet13` appends `min(num_cells - 144, 16)` voltage readings. -/
theorem parsePacket13_eq (s : BYDHVS) (d : Bytes) (n : Nat)
    (hn : n < s.towerAttributes.length) :
    parsePacket13 s d n = .ok (setTower s n
      { towerAt s n with
        cellVoltages := (towerAt s n).cellVoltages ++
          (List.range (min ((s.hvsNumCells : Int) - 144) 16).toNat).map
            (fun i => buf2int16si d (5 + i * 2)) }) := by
  unfold parsePacket13
  rw [getTower_eq s n hn]
  rfl

/-- Length of a Python slice with a non-negative end. -/
theorem pySlice_length (d : Bytes) (a : Nat) (b : Int) (hb : 0 ≤ b) :
    (pySlice d a b).length = min b.toNat d.length - a := by
  unfold pySlice
  rw [if_neg (by omega)]
  simp [List.length_drop, List.length_take]

/-- The length of the tower reading list a parser result holds (`none` when
the parser raised). -/
def voltLenAt (n : Nat) (r : Except PyExc BYDHVS) : Option Nat :=
  r.toOption.map (fun s => (towerAt s n).cellVoltages.length)

/-- The length of the tower temperature list a parser result holds. -/
def tempLenAt (n : Nat) (r : Except PyExc BYDHVS) : Option Nat :=
  r.toOption.map (fun s => (towerAt s n).cellTemperatures.length)

/-- C4, amended — per-reply reading counts of the six cell-block decoders,
for an in-range tower index.  Decoders 6, 7 (voltages) and 13 append
`min(remaining-needed, per-reply-capacity)` readings, clipped at zero when
the target is already exceeded, where remaining-needed counts from the
fixed capacity of the preceding blocks (16, 80 and 144 readings).  Decoders
5 and 12, however, always store exactly 16 voltage readings, regardless of
the remaining target — past it when the target is below the block (e.g.
an LVS single-module system reporting 8 cells, see the counterexample).
The temperature blocks: decoder 7 stores `min(num_temps, 30)` readings
(fewer only if the reply is shorter than byte 103 + count), and decoder 8,
when `num_temps ≥ 30`, appends `min(num_temps - 30, 34)` readings (capped
by the reply length; for `num_temps < 30` see the C5 slice bug). -/
theorem c4_amended_block_counts (s : BYDHVS) (n : Nat) (d : Bytes)
    (hn : n < s.towerAttributes.length) :
    voltLenAt n (parsePacket5 s d n) =
      (parsePacket5 s d n).toOption.map (fun _ => 16) ∧
    voltLenAt n (parsePacket6 s d n) =
      some ((towerAt s n).cellVoltages.length +
        (min ((s.hvsNumCells : Int) - 16) 64).toNat) ∧
    voltLenAt n (parsePacket7 s d n) =
      some ((towerAt s n).cellVoltages.length +
        (min ((s.hvsNumCells : Int) - 80) 48).toNat) ∧
    tempLenAt n (parsePacket7 s d n) =
      some (min (103 + (min (s.hvsNumTemps : Int) 30).toNat) d.length - 103) ∧
    (30 ≤ s.hvsNumTemps →
      tempLenAt n (parsePacket8 s d n) =
        some ((towerAt s n).cellTemperatures.length +
          (min (5 + (min ((s.hvsNumTemps : Int) - 30) 34).toNat) d.length - 5))) ∧
    voltLenAt n (parsePacket12 s d n) =
      some ((towerAt s n).cellVoltages.length + 16) ∧
    voltLenAt n (parsePacket13 s d n) =
      some ((towerAt s n).cellVoltages.length +
        (min ((s.hvsNumCells : Int) - 144) 16).toNat) := by
  refine ⟨?_, ?_, ?_, ?_, ?_, ?_, ?_⟩
  · cases hp : parsePacket5 s d n with
    | error e => simp [voltLenAt, Except.toOption]
    | ok s' =>
      simp [voltLenAt, Except.toOption, (parsePacket5_ok s d n s' hp).2.1]
  · rw [parsePacket6_eq s d n hn]
    simp only [voltLenAt, Except.toOption, Option.map]
    rw [towerAt_set s n _ hn]
    simp [List.length_append, List.length_map, List.length_range]
  · rw [parsePacket7_eq s d n hn]
    simp only [voltLenAt, Except.toOption, Option.map]
    rw [towerAt_set s n _ hn]
    simp [List.length_append, List.length_map, List.length_range]
  · rw [parsePacket7_eq s d n hn]
    simp only [tempLenAt, Except.toOption, Option.map]
    rw [towerAt_set s n _ hn]
    simp only
    rw [pySlice_length d 103 _ (by omega)]
    congr 1
    omega
  · intro hnt
    rw [parsePacket8_eq s d n hn]
    simp only [tempLenAt, Except.toOption, Option.map]
    rw [towerAt_set s n _ hn]
    simp only [List.length_append]
    rw [pySlice_length d 5 _ (by omega)]
    congr 1
    omega
  · rw [parsePacket12_eq s d n hn]
    simp only [voltLenAt, Except.toOption, Option.map]
    rw [towerAt_set s n _ hn]
    simp [List.length_append, List.length_map, List.length_range]
  · rw [parsePacket13_eq s d n hn]
    simp only [voltLenAt, Except.toOption, Option.map]
    rw [towerAt_set s n _ hn]
    simp [List.length_append, List.length_map, List.length_range]

/-- The machine of the C4 witness: one tower, 100 cells and 34
temperatures in total. -/
def c4w : BYDHVS :=
  { hvsNumCells := 100, hvsNumTemps := 34, towerAttributes := [{}] }

/-- A 61-byte all-zero reply for the C4 witness. -/
def c4wd : Bytes := List.replicate 61 0

/-- Witness for C4 (amended) at `num_cells = 100`, `num_temps = 34`, on a
61-byte reply: block counts 16, 64, 20, 0 temperatures at byte 103 (the
reply is shorter), 4 temperatures in block 8, 16 and 0. -/
theorem c4_witness :
    voltLenAt 0 (parsePacket5 c4w c4wd 0) =
      (parsePacket5 c4w c4wd 0).toOption.map (fun _ => 16) ∧
    voltLenAt 0 (parsePacket6 c4w c4wd 0) =
      some ((towerAt c4w 0).cellVoltages.length +
        (min ((c4w.hvsNumCells : Int) - 16) 64).toNat) ∧
    voltLenAt 0 (parsePacket7 c4w c4wd 0) =
      some ((towerAt c4w 0).cellVoltages.length +
        (min ((c4w.hvsNumCells : Int) - 80) 48).toNat) ∧
    tempLenAt 0 (parsePacket7 c4w c4wd 0) =
      some (min (103 + (min (c4w.hvsNumTemps : Int) 30).toNat) c4wd.length - 103) ∧
    tempLenAt 0 (parsePacket8 c4w c4wd 0) =
      some ((towerAt c4w 0).cellTemperatures.length +
        (min (5 + (min ((c4w.hvsNumTemps : Int) - 30) 34).toNat) c4wd.length - 5)) ∧
    voltLenAt 0 (parsePacket12 c4w c4wd 0) =
      some ((towerAt c4w 0).cellVoltages.length + 16) ∧
    voltLenAt 0 (parsePacket13 c4w c4wd 0) =
      some ((towerAt c4w 0).cellVoltages.length +
        (min ((c4w.hvsNumCells : Int) - 144) 16).toNat) := by
  have h := c4_amended_block_counts c4w 0 c4wd (by decide)
  exact ⟨h.1, h.2.1, h.2.2.1, h.2.2.2.1, h.2.2.2.2.1 (by decide),
    h.2.2.2.2.2.1, h.2.2.2.2.2.2⟩

/-- C3, amended — the machine with the connection already open.  When the
connection succeeds and no decoder raises, every transport fault after
connect (absent or invalid reply at any step) is absorbed: `poll` returns
normally with state 0 and the connection closed.  When the connection
attempt itself fails, `poll` instead raises and leaves state 1 with no
cleanup (see the counterexample), and a decoder raise likewise escapes
(see C10). -/
theorem c3_amended_poll_cleanup (env : Env) (s : BYDHVS) (hs : s.state = 0)
    (hc : env.connectOk = true)
    (hr : (runLoop (startMachine
        { s with state := 1, currentTower := 0, stateActionList := [] })
        env.replies).2 = none) :
    poll env s =
      ({ (runLoop (startMachine
          { s with state := 1, currentTower := 0, stateActionList := [] })
          env.replies).1 with connected := false, state := 0 }, none) := by
  simp only [poll]
  rw [if_neg (by simp [hs])]
  rw [hc]
  simp only [if_true]
  rcases hx : runLoop (startMachine
      { s with state := 1, currentTower := 0, stateActionList := [] })
      env.replies with ⟨F, e⟩
  rw [hx] at hr
  simp only at hr
  subst hr
  rfl

/-- Witness for C3 (amended): a transport that times out on the first
receive — the cycle fails, yet `poll` returns normally, with state 0 and
the connection closed. -/
theorem c3_witness :
    poll ⟨true, [none]⟩ ({} : BYDHVS) =
      ({ (runLoop (startMachine
          { ({} : BYDHVS) with state := 1, currentTower := 0, stateActionList := [] })
          [none]).1 with connected := false, state := 0 }, none) :=
  c3_amended_poll_cleanup ⟨true, [none]⟩ {} rfl rfl (by decide)

end BydHvs
